import Mathlib

/-!
Shallow embedding of the response-orchestration pipeline and chat session
state of `src/app.py` (the `server` function's local definitions
`detect_language`, `translate_text`, `get_ai_response`,
`handle_send_message`, `handle_clear_chat`, and the reactive values
`chat_history` / `is_processing`).

Remote clients are modelled as oracle functions from the exact prompt (or
message list) the code sends to an outcome: either a returned text or a
raised exception. Python exceptions that the code catches are represented
as explicit outcome constructors; a function that catches every exception
is total here, which is how "never raises" is expressed.
-/

/-- Outcome of one `client.generate_content(prompt)` call on the Google
client: either the response text, or some raised exception. -/
inductive GenOutcome where
  | ok (text : String)
  | exn
deriving DecidableEq, Repr

/-- The Google client handle: absent (`None` in Python) or a behaviour
mapping the prompt string sent to the outcome of the call. -/
abbrev GoogleClient := Option (String → GenOutcome)

/-- Outcome of one `hf_client.chat.completions.create(...)` call: a
successful response carrying the list of `choices[i].message.content`
texts, a raised `StopIteration`, or any other raised exception. -/
inductive ChatOutcome where
  | choices (texts : List String)
  | stopIteration
  | exn
deriving DecidableEq, Repr

/-- The Hugging Face client handle: absent or a behaviour mapping the
message list sent (role, content pairs) to the outcome of the call. -/
abbrev HfClient := Option (List (String × String) → ChatOutcome)

/-- Python `str.strip()` whitespace set (ASCII part): space, tab, newline,
carriage return, vertical tab, form feed. -/
def isPySpace (c : Char) : Bool :=
  c = ' ' || c = '\t' || c = '\n' || c = '\r' || c = '\x0b' || c = '\x0c'

/-- Python `str.strip()`: drop leading and trailing whitespace. -/
def pyStrip (s : String) : String :=
  String.mk (((s.toList.dropWhile isPySpace).reverse.dropWhile isPySpace).reverse)

/-- Python `str.lower()` (ASCII range, which is all the code compares). -/
def pyLower (s : String) : String :=
  String.mk (s.toList.map Char.toLower)

/-- Python `s.split('\n')[0]`: the characters before the first newline. -/
def firstLine (s : String) : String :=
  String.mk (s.toList.takeWhile (fun c => c != '\n'))

/-- Python `'\n' in s`. -/
def containsNewline (s : String) : Bool :=
  s.toList.contains '\n'

/-- The prompt `detect_language` sends (app.py line 737). -/
def detect_prompt (text : String) : String :=
  "What language is the following text written in? Respond with only the language name (e.g., \x27Indonesian\x27, \x27English\x27, \x27Spanish\x27).\n\nText: \"" ++ text ++ "\""

/-- `detect_language(text, client)` (app.py lines 729-747): returns
"English" when the client is absent; otherwise sends the detection prompt,
strips the reply, keeps only the first line when the stripped reply
contains a newline, and returns "English" when the call raises. -/
def detect_language (text : String) (client : GoogleClient) : String :=
  match client with
  | none => "English"
  | some gen =>
    match gen (detect_prompt text) with
    | .exn => "English"
    | .ok raw =>
      let detected_lang := pyStrip raw
      if containsNewline detected_lang then firstLine detected_lang else detected_lang

/-- The prompt `translate_text` sends (app.py line 761). -/
def translate_prompt (text target_language : String) : String :=
  "Translate the following English text to " ++ target_language ++ ". Only provide the translation, nothing else:\n\n" ++ text

/-- `translate_text(text, target_language, client)` (app.py lines
749-767): annotated original when the client is absent; the text
unchanged when the target is (case-insensitively) English; otherwise the
remote translation, or the annotated original when the call raises. -/
def translate_text (text target_language : String) (client : GoogleClient) : String :=
  match client with
  | none => "(Translation failed: Google AI client not initialized) " ++ text
  | some gen =>
    if pyLower target_language = "english" then text
    else
      match gen (translate_prompt text target_language) with
      | .ok t => t
      | .exn => "(Translation to " ++ target_language ++ " failed, showing original text) " ++ text

/-- The system instruction of the completion request (app.py line 786). -/
def system_instruction : String :=
  "You are Dokter Arki, a helpful medical AI assistant. Provide accurate, educational information. Structure your answer for clarity and readability. Use markdown formatting such as bullet points (`* item`), numbered lists, and bold text (`**text**`) where it helps to explain complex information. Always conclude your response by reminding the user to consult a qualified healthcare professional for any medical advice, diagnosis, or treatment."

/-- The two-message exchange sent to the completion API (app.py lines
783-789). -/
def hf_messages (user_message : String) : List (String × String) :=
  [("system", system_instruction), ("user", user_message)]

/-- Fallback when `hf_client` is absent (app.py line 775). -/
def not_initialized_msg : String :=
  "Error: AI client not initialized. Please check your API key configuration."

/-- Fallback when the completion response has zero choices (app.py line 800). -/
def empty_choices_msg : String :=
  "The AI model returned an empty response. Please try rephrasing your question or try again later."

/-- Fallback when the completion call raises StopIteration (app.py line 805). -/
def stop_iteration_msg : String :=
  "The AI model did not generate a response. This might be a temporary issue with the service. Please try again."

/-- Fallback when the completion call raises any other exception (app.py line 810). -/
def generic_error_msg : String :=
  "An error occurred while communicating with the AI. Please try again later."

/-- The completion step of `get_ai_response` (app.py lines 781-810): maps
each possible outcome of the remote call to the `response_content` text
the code assigns. -/
def completion_step (outcome : ChatOutcome) : String :=
  match outcome with
  | .choices [] => empty_choices_msg
  | .choices (t :: _) => t
  | .stopIteration => stop_iteration_msg
  | .exn => generic_error_msg

/-- `get_ai_response(user_message)` (app.py lines 769-813): returns the
raw not-initialized fallback when `hf_client` is absent; otherwise
detects the input language, runs the completion step, and translates the
resulting content into the detected language. -/
def get_ai_response (user_message : String) (hf_client : HfClient)
    (google_client : GoogleClient) : String :=
  match hf_client with
  | none => not_initialized_msg
  | some hf =>
    let user_lang := detect_language user_message google_client
    let response_content := completion_step (hf (hf_messages user_message))
    translate_text response_content user_lang google_client

/-- One entry of `chat_history` (app.py lines 836-840, 852-856). -/
structure ChatTurn where
  type : String
  content : String
  timestamp : String
deriving DecidableEq, Repr

/-- The session's mutable state: the `chat_history` and `is_processing`
reactive values (app.py lines 726-727). -/
structure SessionState where
  chat_history : List ChatTurn
  is_processing : Bool
deriving DecidableEq, Repr

/-- Initial session state: empty history, not processing (app.py lines
726-727). -/
def initial_state : SessionState :=
  { chat_history := [], is_processing := false }

/-- `handle_send_message` (app.py lines 817-865) as a state transformer.
`raw` is `input.user_input()`; `ts1`, `ts2` are the two
`datetime.now().strftime(...)` timestamps; `orch_raises` models an
unexpected exception escaping during the `get_ai_response` call, which
the surrounding `try` catches by setting `is_processing` to `False`
(history then still holds the already-appended user turn). -/
def handle_send_message (raw ts1 ts2 : String) (hf : HfClient)
    (google : GoogleClient) (orch_raises : Bool) (st : SessionState) : SessionState :=
  let user_message := pyStrip raw
  if user_message = "" then st
  else
    let updated_history := st.chat_history ++ [⟨"user", user_message, ts1⟩]
    if orch_raises then
      { chat_history := updated_history, is_processing := false }
    else
      let ai_response := get_ai_response user_message hf google
      { chat_history := updated_history ++ [⟨"ai", ai_response, ts2⟩],
        is_processing := false }

/-- `handle_clear_chat` (app.py lines 869-871): resets the history, does
not touch `is_processing`. -/
def handle_clear_chat (st : SessionState) : SessionState :=
  { st with chat_history := [] }

/-! ## Claim theorems -/

/-- A Google client used in the C1 counterexample: detection of
"Saya demam" answers "Indonesian", and every other prompt (in particular
any translation prompt) succeeds with a marked translation. -/
def c1_google_fn : String → GenOutcome := fun p =>
  if p = detect_prompt "Saya demam" then .ok "Indonesian"
  else .ok ("[terjemahan] " ++ p)

/-- C1 counterexample: with the completion client absent and a working
language client present, `get_ai_response "Saya demam"` is exactly the
raw English not-initialized fallback, and is NOT the translation of that
fallback into the detected language, contradicting the claim. -/
theorem c1_counterexample :
    get_ai_response "Saya demam" none (some c1_google_fn) = not_initialized_msg ∧
    get_ai_response "Saya demam" none (some c1_google_fn) ≠
      translate_text not_initialized_msg
        (detect_language "Saya demam" (some c1_google_fn)) (some c1_google_fn) := by
  constructor
  · rfl
  · decide

/-- C1 amended: when the completion client handle is absent,
`get_ai_response` returns the raw English not-initialized fallback
immediately, for every message and every language-client state — no
detection and no translation is applied. -/
theorem c1_absent_hf_raw_fallback (msg : String) (google : GoogleClient) :
    get_ai_response msg none google = not_initialized_msg := rfl

/-- C2 counterexample: with the client absent, the absence check precedes
the English short-circuit, so `translate_text "hello" "English" none` is
the annotated string, not `"hello"` unchanged. -/
theorem c2_counterexample :
    translate_text "hello" "English" none ≠ "hello" := by decide

/-- C2 amended: whenever the client is PRESENT and the target language
lowercases to "english", `translate_text` returns the text unchanged; the
result does not depend on the client behaviour (no remote call). -/
theorem c2_english_short_circuit (text target_language : String)
    (gen : String → GenOutcome) (h : pyLower target_language = "english") :
    translate_text text target_language (some gen) = text := by
  simp [translate_text, h]

/-- Witness for `c2_english_short_circuit` at a concrete input. -/
theorem c2_english_short_circuit_witness :
    pyLower "English" = "english" ∧
    translate_text "hi" "English" (some fun _ => GenOutcome.exn) = "hi" :=
  ⟨by decide, c2_english_short_circuit "hi" "English" (fun _ => GenOutcome.exn) (by decide)⟩

/-- C4: `detect_language` returns the default "English" whenever the
client handle is absent or the remote call raises; it never raises
(it is total over all modelled outcomes). -/
theorem c4_detect_default (text : String) (client : GoogleClient)
    (h : client = none ∨ ∃ g, client = some g ∧ g (detect_prompt text) = .exn) :
    detect_language text client = "English" := by
  rcases h with h | ⟨g, hc, hg⟩
  · subst h; rfl
  · subst hc; simp [detect_language, hg]

/-- Witness for `c4_detect_default` at a concrete input. -/
theorem c4_detect_default_witness :
    detect_language "Saya demam" none = "English" :=
  c4_detect_default "Saya demam" none (Or.inl rfl)

/-- C9: the completion step never propagates an error: StopIteration and
any other exception each resolve to a fixed failure string, a successful
response with zero choices resolves to the distinct empty-response
message, and a successful response with a first choice resolves to that
choice's text verbatim. -/
theorem c9_completion_step_total :
    completion_step .stopIteration = stop_iteration_msg ∧
    completion_step .exn = generic_error_msg ∧
    completion_step (.choices []) = empty_choices_msg ∧
    (∀ t rest, completion_step (.choices (t :: rest)) = t) ∧
    empty_choices_msg ≠ stop_iteration_msg ∧
    empty_choices_msg ≠ generic_error_msg := by
  refine ⟨rfl, rfl, rfl, fun t rest => rfl, by decide, by decide⟩

/-- A string append is nonempty when its left part is. -/
theorem append_ne_empty_left (a b : String) (h : a ≠ "") : a ++ b ≠ "" := by
  intro hab
  apply h
  have hd : a.data ++ b.data = ([] : List Char) := congrArg String.data hab
  have ha : a.data = [] := (List.append_eq_nil.mp hd).1
  cases a
  simp_all

/-- Every choice text a client returns is nonempty (the head text is the
one the code uses). -/
def hfTextsNonempty (hf : List (String × String) → ChatOutcome) : Prop :=
  ∀ msgs t rest, hf msgs = .choices (t :: rest) → t ≠ ""

/-- Every text the Google client returns is nonempty. -/
def genTextsNonempty (g : String → GenOutcome) : Prop :=
  ∀ p t, g p = .ok t → t ≠ ""

/-- The completion step yields nonempty text whenever a successful head
choice is nonempty; every fallback string is nonempty. -/
theorem completion_step_nonempty (o : ChatOutcome)
    (h : ∀ t rest, o = .choices (t :: rest) → t ≠ "") :
    completion_step o ≠ "" := by
  cases o with
  | choices ts =>
    cases ts with
    | nil => decide
    | cons t rest => exact h t rest rfl
  | stopIteration => decide
  | exn => decide

/-- Translation yields nonempty text from nonempty input when every
remote translation output is nonempty; failure annotations are nonempty
by themselves. -/
theorem translate_text_nonempty (text lang : String) (google : GoogleClient)
    (ht : text ≠ "") (h2 : ∀ g, google = some g → genTextsNonempty g) :
    translate_text text lang google ≠ "" := by
  cases google with
  | none =>
    exact append_ne_empty_left _ _ (by decide)
  | some g =>
    by_cases hl : pyLower lang = "english"
    · simpa [translate_text, hl] using ht
    · simp only [translate_text, hl, if_neg]
      cases hg : g (translate_prompt text lang) with
      | ok t => exact h2 g rfl _ t hg
      | exn =>
        exact append_ne_empty_left _ _
          (append_ne_empty_left _ _ (append_ne_empty_left _ _ (by decide)))

/-- Clients for the C3 counterexample: the completion succeeds with a
single empty choice; detection answers "English". -/
def c3_hf_fn : List (String × String) → ChatOutcome := fun _ => .choices [""]

/-- Detection oracle for the C3 counterexample. -/
def c3_google_fn : String → GenOutcome := fun _ => .ok "English"

/-- C3 counterexample: for the non-empty message "hello", with both
clients present, a successful completion whose candidate text is empty
reaches the English short-circuit untouched, so `get_ai_response`
returns the empty string — the claim's unconditional non-emptiness
fails. -/
theorem c3_counterexample :
    "hello" ≠ "" ∧
    get_ai_response "hello" (some c3_hf_fn) (some c3_google_fn) = "" := by
  exact ⟨by decide, rfl⟩

/-- C3 amended: `get_ai_response` never raises (it is total over all
modelled outcomes) and returns nonempty text provided every text a
remote call returns is nonempty (the completion's used candidate text
and the Google client's outputs); all internal fallback strings are
nonempty unconditionally. -/
theorem c3_respond_nonempty (msg : String) (hf : HfClient) (google : GoogleClient)
    (h1 : ∀ f, hf = some f → hfTextsNonempty f)
    (h2 : ∀ g, google = some g → genTextsNonempty g) :
    get_ai_response msg hf google ≠ "" := by
  cases hf with
  | none =>
    show not_initialized_msg ≠ ""
    decide
  | some f =>
    have hrc : completion_step (f (hf_messages msg)) ≠ "" :=
      completion_step_nonempty _ (fun t rest he => h1 f rfl (hf_messages msg) t rest he)
    exact translate_text_nonempty _ _ _ hrc h2

/-- Witness for `c3_respond_nonempty` at a concrete input. -/
theorem c3_respond_nonempty_witness :
    get_ai_response "hello" none none ≠ "" :=
  c3_respond_nonempty "hello" none none (fun _ h => nomatch h) (fun _ h => nomatch h)

/-- The first line of a string contains no newline. -/
theorem firstLine_no_newline (s : String) : containsNewline (firstLine s) = false := by
  show (s.toList.takeWhile (fun c => c != '\n')).contains '\n' = false
  cases he : (s.toList.takeWhile (fun c => c != '\n')).contains '\n' with
  | false => rfl
  | true =>
    exfalso
    have hm : '\n' ∈ s.toList.takeWhile (fun c => c != '\n') :=
      List.mem_of_elem_eq_true he
    have := List.mem_takeWhile_imp hm
    simp at this

/-- Detection oracle for the C5 counterexample: the raw reply is a
verbose two-line answer whose first line ends in a space. -/
def c5_google_fn : String → GenOutcome :=
  fun _ => .ok "Indonesian \nThe language is Indonesian."

/-- C5 counterexample: with the raw detection reply
"Indonesian \nThe language is Indonesian.", `detect_language` returns
"Indonesian " with a trailing space — the result is not trimmed, because
the code strips before splitting off the first line. -/
theorem c5_counterexample :
    detect_language "Saya demam" (some c5_google_fn) = "Indonesian " ∧
    pyStrip "Indonesian " ≠ "Indonesian " := by
  exact ⟨rfl, by decide⟩

/-- C5 amended: for every raw reply the model returns, `detect_language`
first strips the reply, then keeps only the part before the first
newline when the stripped reply is multi-line; the result is always
single-line, but may retain trailing whitespace from a multi-line
reply. -/
theorem c5_first_line_of_stripped (text raw : String) (g : String → GenOutcome)
    (h : g (detect_prompt text) = .ok raw) :
    detect_language text (some g) =
      (if containsNewline (pyStrip raw) then firstLine (pyStrip raw) else pyStrip raw) ∧
    containsNewline (detect_language text (some g)) = false := by
  have hval : detect_language text (some g) =
      (if containsNewline (pyStrip raw) then firstLine (pyStrip raw) else pyStrip raw) := by
    simp [detect_language, h]
  refine ⟨hval, ?_⟩
  rw [hval]
  by_cases hn : containsNewline (pyStrip raw)
  · simp [hn, firstLine_no_newline]
  · simp [hn]

/-- Witness for `c5_first_line_of_stripped` at a concrete input. -/
theorem c5_first_line_of_stripped_witness :
    detect_language "Saya demam" (some c5_google_fn) =
      (if containsNewline (pyStrip "Indonesian \nThe language is Indonesian.")
       then firstLine (pyStrip "Indonesian \nThe language is Indonesian.")
       else pyStrip "Indonesian \nThe language is Indonesian.") ∧
    containsNewline (detect_language "Saya demam" (some c5_google_fn)) = false :=
  c5_first_line_of_stripped "Saya demam" "Indonesian \nThe language is Indonesian."
    c5_google_fn rfl

/-- C6: a submission that is empty after stripping leaves the whole
session state (history and processing flag) exactly unchanged, for every
client state and even under the modelled unexpected exception. -/
theorem c6_empty_submit_noop (raw ts1 ts2 : String) (hf : HfClient)
    (google : GoogleClient) (orch_raises : Bool) (st : SessionState)
    (h : pyStrip raw = "") :
    handle_send_message raw ts1 ts2 hf google orch_raises st = st := by
  simp [handle_send_message, h]

/-- Witness for `c6_empty_submit_noop` at a concrete input. -/
theorem c6_empty_submit_noop_witness :
    pyStrip "   " = "" ∧
    handle_send_message "   " "10:00:00" "10:00:01" none none false initial_state =
      initial_state :=
  ⟨by decide,
   c6_empty_submit_noop "   " "10:00:00" "10:00:01" none none false initial_state
     (by decide)⟩

/-- C7: on a non-empty submission where the orchestrator returns
normally, the handler appends exactly the user turn followed by the
assistant turn holding the orchestrator's text, leaves the processing
flag false, and the history grows by exactly 2. -/
theorem c7_success_appends_two (raw ts1 ts2 : String) (hf : HfClient)
    (google : GoogleClient) (st : SessionState) (h : pyStrip raw ≠ "") :
    handle_send_message raw ts1 ts2 hf google false st =
      { chat_history := st.chat_history ++
          [⟨"user", pyStrip raw, ts1⟩,
           ⟨"ai", get_ai_response (pyStrip raw) hf google, ts2⟩],
        is_processing := false } ∧
    (handle_send_message raw ts1 ts2 hf google false st).chat_history.length =
      st.chat_history.length + 2 := by
  constructor
  · simp [handle_send_message, h]
  · simp [handle_send_message, h]

/-- Witness for `c7_success_appends_two` at a concrete input. -/
theorem c7_success_appends_two_witness :
    pyStrip "hi" ≠ "" ∧
    (handle_send_message "hi" "10:00:00" "10:00:01" none none false initial_state =
      { chat_history := initial_state.chat_history ++
          [⟨"user", pyStrip "hi", "10:00:00"⟩,
           ⟨"ai", get_ai_response (pyStrip "hi") none none, "10:00:01"⟩],
        is_processing := false } ∧
    (handle_send_message "hi" "10:00:00" "10:00:01" none none false
        initial_state).chat_history.length =
      initial_state.chat_history.length + 2) :=
  ⟨by decide,
   c7_success_appends_two "hi" "10:00:00" "10:00:01" none none initial_state (by decide)⟩

/-- C8: for every text and non-English target, when the client is absent
or the remote call raises, `translate_text` returns the original text
prefixed by a failure annotation — in particular the result contains the
original text (as a suffix), and the function is total (never raises). -/
theorem c8_translate_failure_keeps_original (text target_language : String)
    (client : GoogleClient) (htgt : pyLower target_language ≠ "english")
    (h : client = none ∨ ∃ g, client = some g ∧
        g (translate_prompt text target_language) = .exn) :
    ∃ p, translate_text text target_language client = p ++ text := by
  rcases h with h | ⟨g, hc, hg⟩
  · subst h
    exact ⟨"(Translation failed: Google AI client not initialized) ", rfl⟩
  · subst hc
    refine ⟨"(Translation to " ++ target_language ++ " failed, showing original text) ", ?_⟩
    simp [translate_text, htgt, hg]

/-- Witness for `c8_translate_failure_keeps_original` at a concrete input. -/
theorem c8_translate_failure_keeps_original_witness :
    pyLower "Spanish" ≠ "english" ∧
    ∃ p, translate_text "hola" "Spanish" none = p ++ "hola" :=
  ⟨by decide,
   c8_translate_failure_keeps_original "hola" "Spanish" none (by decide) (Or.inl rfl)⟩

/-- C10: the processing flag starts false; every exit path of the send
handler (empty-input early return, normal completion, caught exception)
leaves it false when it was false at entry; and the clear handler never
touches it. Hence the flag is false at every operation boundary. -/
theorem c10_processing_false_at_boundaries :
    initial_state.is_processing = false ∧
    (∀ raw ts1 ts2 hf google orch_raises st, st.is_processing = false →
      (handle_send_message raw ts1 ts2 hf google orch_raises st).is_processing = false) ∧
    (∀ st : SessionState, (handle_clear_chat st).is_processing = st.is_processing) := by
  refine ⟨rfl, ?_, fun st => rfl⟩
  intro raw ts1 ts2 hf google orch_raises st h
  by_cases he : pyStrip raw = ""
  · simp [handle_send_message, he, h]
  · by_cases ho : orch_raises <;> simp [handle_send_message, he, ho]

/-- Witness for `c10_processing_false_at_boundaries` at a concrete input
(exception path). -/
theorem c10_processing_false_witness :
    initial_state.is_processing = false ∧
    (handle_send_message "hi" "10:00:00" "10:00:01" none none true
      initial_state).is_processing = false :=
  ⟨c10_processing_false_at_boundaries.1,
   c10_processing_false_at_boundaries.2.1 "hi" "10:00:00" "10:00:01" none none true
     initial_state rfl⟩
